import Mathlib

/-!
Verification of the Meshtastic transmission-speed simulator
(`src/meshtastic_sim.py`) against its design specification.

The source's numeric computations (Python floats over decimal literals) are
embedded over `ℚ`; integer arithmetic (`//`, `len`, counters) over `ℕ`.
External effects (file reads, URL fetches, wall-clock sleeps, keyboard
interrupts) are made explicit parameters of the embedded functions.
-/

/-- A radio preset record, from the tuples of `RADIO_PRESETS`
`(data_rate_kbps, packet_size_bytes, sf_symbols, bandwidth_khz, coding_rate, description)`. -/
structure Preset where
  data_rate_kbps : ℚ
  packet_size_bytes : ℕ
  sf_symbols : String
  bandwidth_khz : ℕ
  coding_rate : String
  description : String
deriving DecidableEq, Repr

/-- The fixed preset table (source lines 20-29), keyed by preset id. -/
def RADIO_PRESETS : List (String × Preset) :=
  [ ("1", ⟨21.88, 237, "7/128", 500, "4/5", "Short Range / Turbo - Fastest speed, shortest range"⟩),
    ("2", ⟨10.94, 237, "7/128", 250, "4/5", "Short Range / Fast - High speed, short range"⟩),
    ("3", ⟨6.25, 237, "8/256", 250, "4/5", "Short Range / Slow - Moderate speed, short range"⟩),
    ("4", ⟨3.52, 237, "9/512", 250, "4/5", "Medium Range / Fast - Good balance of speed and range"⟩),
    ("5", ⟨1.95, 237, "10/1024", 250, "4/5", "Medium Range / Slow - Lower speed, better range"⟩),
    ("6", ⟨1.07, 237, "11/2048", 250, "4/5", "Long Range / Fast - DEFAULT PRESET - Low speed, long range"⟩),
    ("7", ⟨0.34, 237, "11/2048", 125, "4/8", "Long Range / Moderate - Very low speed, very long range"⟩),
    ("8", ⟨0.18, 237, "12/4096", 125, "4/8", "Long Range / Slow - Slowest speed, maximum range"⟩) ]

/-- `self.default_preset = '6'` (source line 58). -/
def default_preset : String := "6"

/-- `preset_id in RADIO_PRESETS` (dict membership, source line 189). -/
def presetKnown (id : String) : Bool :=
  (RADIO_PRESETS.lookup id).isSome

/-- The dict returned by `calculate_transmission_metrics`. -/
structure Metrics where
  bytes_per_second : ℚ
  transmission_time_per_packet : ℚ
  total_packets : ℕ
  total_transmission_time : ℚ
  effective_data_rate_bps : ℚ
  effective_data_rate_kbps : ℚ
  overhead_percentage : ℚ
deriving DecidableEq, Repr

/-- `MeshtasticSimulator.calculate_transmission_metrics` (source lines 124-140).
`total_packets = (content_length + packet_size - 1) // packet_size` is Python
integer floor division on non-negative operands, i.e. `Nat` division. -/
def calculate_transmission_metrics (data_rate_kbps : ℚ) (content_length : ℕ)
    (packet_size : ℕ) : Metrics :=
  let bytes_per_second : ℚ := data_rate_kbps * 1000 / 8
  let transmission_time_per_packet : ℚ := packet_size / bytes_per_second
  let total_packets : ℕ := (content_length + packet_size - 1) / packet_size
  let total_transmission_time : ℚ := total_packets * transmission_time_per_packet
  let effective_data_rate : ℚ :=
    if total_transmission_time > 0 then content_length / total_transmission_time else 0
  { bytes_per_second := bytes_per_second
    transmission_time_per_packet := transmission_time_per_packet
    total_packets := total_packets
    total_transmission_time := total_transmission_time
    effective_data_rate_bps := effective_data_rate
    effective_data_rate_kbps := effective_data_rate * 8 / 1000
    overhead_percentage :=
      if content_length > 0 then
        ((total_packets * packet_size : ℚ) - (content_length : ℚ)) / content_length * 100
      else 0 }

/-- The content length covered by `total_packets` packets is at least the
content length: `(L + P - 1) / P * P ≥ L`. -/
lemma le_totalPackets_mul (L P : ℕ) (hP : 0 < P) :
    L ≤ (L + P - 1) / P * P := by
  have h1 := Nat.div_add_mod (L + P - 1) P
  have h2 := Nat.mod_lt (L + P - 1) hP
  rw [Nat.mul_comm]
  omega

/-- When `P` divides `L`, exactly `L / P` packets are used. -/
lemma totalPackets_of_dvd (L P : ℕ) (hP : 0 < P) (h : P ∣ L) :
    (L + P - 1) / P * P = L := by
  obtain ⟨m, rfl⟩ := h
  rcases Nat.eq_zero_or_pos m with hm | hm
  · subst hm
    simp [Nat.div_eq_of_lt, Nat.sub_lt hP]
  · have hrw : P * m + P - 1 = (P - 1) + m * P := by
      have := Nat.mul_comm P m
      omega
    rw [hrw, Nat.add_mul_div_right _ _ hP, Nat.div_eq_of_lt (by omega), Nat.zero_add,
      Nat.mul_comm]

/-- Packet count equals the rational ceiling of `L / P`. -/
lemma totalPackets_eq_ceil (L P : ℕ) (hP : 0 < P) :
    (L + P - 1) / P = ⌈(L : ℚ) / (P : ℚ)⌉₊ := by
  have hPQ : (0 : ℚ) < (P : ℚ) := by exact_mod_cast hP
  rcases Nat.eq_zero_or_pos L with hL | hL
  · subst hL
    rw [Nat.zero_add, Nat.div_eq_of_lt (by omega)]
    simp
  · set q := (L + P - 1) / P with hq
    have hq1 : 1 ≤ q := by
      have : P ≤ L + P - 1 := by omega
      calc 1 = P / P := (Nat.div_self hP).symm
        _ ≤ (L + P - 1) / P := Nat.div_le_div_right this
    have h1 := Nat.div_add_mod (L + P - 1) P
    have h2 := Nat.mod_lt (L + P - 1) hP
    have hub : L ≤ q * P := le_totalPackets_mul L P hP
    have hlb : (q - 1) * P < L := by
      have : P * q + (L + P - 1) % P = L + P - 1 := h1
      have hc : q * P = P * q := Nat.mul_comm q P
      have : (q - 1) * P = q * P - P := by
        rw [Nat.sub_mul, Nat.one_mul]
      omega
    symm
    rw [Nat.ceil_eq_iff (by omega)]
    constructor
    · rw [lt_div_iff₀ hPQ]
      exact_mod_cast hlb
    · rw [div_le_iff₀ hPQ]
      exact_mod_cast hub

/-- C9: the plan's total duration is definitionally the packet count times the
per-packet delay (source line 129). -/
theorem c9_duration_identity (data_rate_kbps : ℚ) (content_length packet_size : ℕ) :
    (calculate_transmission_metrics data_rate_kbps content_length packet_size).total_transmission_time =
      (calculate_transmission_metrics data_rate_kbps content_length packet_size).total_packets *
      (calculate_transmission_metrics data_rate_kbps content_length packet_size).transmission_time_per_packet :=
  rfl

/-- C2: for every positive packet size and every content length, the computed
packet count is the ceiling of `content_length / packet_size`, and is `0` for
empty content. -/
theorem c2_total_packets_ceil (data_rate_kbps : ℚ) (L P : ℕ) (hP : 0 < P) :
    (calculate_transmission_metrics data_rate_kbps L P).total_packets =
      ⌈(L : ℚ) / (P : ℚ)⌉₊ ∧
    (L = 0 → (calculate_transmission_metrics data_rate_kbps L P).total_packets = 0) := by
  constructor
  · exact totalPackets_eq_ceil L P hP
  · intro hL
    subst hL
    show (0 + P - 1) / P = 0
    exact Nat.div_eq_of_lt (by omega)

/-- C2 witness: preset 6's rate, 1000 bytes, 237-byte packets give 5 packets. -/
theorem c2_witness :
    (calculate_transmission_metrics 1.07 1000 237).total_packets = ⌈(1000 : ℚ) / (237 : ℚ)⌉₊ ∧
    ((1000 : ℕ) = 0 → (calculate_transmission_metrics 1.07 1000 237).total_packets = 0) :=
  c2_total_packets_ceil 1.07 1000 237 (by decide)

/-- C6: overhead is non-negative, and zero exactly when the packet size
divides the content length (including empty content). -/
theorem c6_overhead (data_rate_kbps : ℚ) (L P : ℕ) (hP : 0 < P) :
    0 ≤ (calculate_transmission_metrics data_rate_kbps L P).overhead_percentage ∧
    ((calculate_transmission_metrics data_rate_kbps L P).overhead_percentage = 0 ↔ P ∣ L) := by
  rcases Nat.eq_zero_or_pos L with hL | hL
  · subst hL
    have hov : (calculate_transmission_metrics data_rate_kbps 0 P).overhead_percentage = 0 := by
      simp [calculate_transmission_metrics]
    refine ⟨le_of_eq hov.symm, ?_⟩
    simp [hov]
  · have hLQ : (0 : ℚ) < (L : ℚ) := by exact_mod_cast hL
    have hub : L ≤ (L + P - 1) / P * P := le_totalPackets_mul L P hP
    have hubQ : (L : ℚ) ≤ (((L + P - 1) / P : ℕ) : ℚ) * (P : ℚ) := by exact_mod_cast hub
    have hov : (calculate_transmission_metrics data_rate_kbps L P).overhead_percentage =
        ((((L + P - 1) / P : ℕ) : ℚ) * (P : ℚ) - (L : ℚ)) / (L : ℚ) * 100 := by
      show (if L > 0 then _ else (0 : ℚ)) = _
      rw [if_pos hL]
    constructor
    · rw [hov]
      have hnum : (0 : ℚ) ≤ (((L + P - 1) / P : ℕ) : ℚ) * (P : ℚ) - (L : ℚ) := by linarith
      positivity
    · rw [hov]
      constructor
      · intro h
        rcases mul_eq_zero.mp h with h0 | h0
        · rcases div_eq_zero_iff.mp h0 with h1 | h1
          · have hmul : (((L + P - 1) / P : ℕ) : ℚ) * (P : ℚ) = (L : ℚ) := by linarith
            have hmulN : (L + P - 1) / P * P = L := by exact_mod_cast hmul
            exact Dvd.intro _ (hmulN.symm.trans (Nat.mul_comm _ _)).symm
          · exact absurd h1 (ne_of_gt hLQ)
        · norm_num at h0
      · intro h
        have := totalPackets_of_dvd L P hP h
        have hmulQ : (((L + P - 1) / P : ℕ) : ℚ) * (P : ℚ) = (L : ℚ) := by exact_mod_cast this
        rw [hmulQ]
        simp

/-- C6 witness: preset 6 at 1000 bytes has overhead 18.5 percent, which is
non-negative and non-zero, and 237 does not divide 1000. -/
theorem c6_witness :
    0 ≤ (calculate_transmission_metrics 1.07 1000 237).overhead_percentage ∧
    ((calculate_transmission_metrics 1.07 1000 237).overhead_percentage = 0 ↔ (237 : ℕ) ∣ 1000) :=
  c6_overhead 1.07 1000 237 (by decide)

/-- C7 counterexample: at preset 6 (rate 1.07, packet 237) with 1000 content
bytes, the per-packet delay 237/133.75 = 948/535 = 1.77196... is strictly below
1.7725, so it does not round to the claimed 1.7729 (not even to 1.773 at three
decimals); likewise the total duration 8.8598... is below 8.860, not the
claimed 8.8645. -/
theorem c7_counterexample :
    (calculate_transmission_metrics 1.07 1000 237).transmission_time_per_packet < 1.7725 ∧
    (1.7729 : ℚ) - (calculate_transmission_metrics 1.07 1000 237).transmission_time_per_packet
      > 0.0009 ∧
    (calculate_transmission_metrics 1.07 1000 237).total_transmission_time < 8.860 ∧
    (8.8645 : ℚ) - (calculate_transmission_metrics 1.07 1000 237).total_transmission_time
      > 0.0046 := by
  norm_num [calculate_transmission_metrics]

/-- C7 amended: exactly eight presets are registered with `"6"` the default;
preset 6 carries rate 1.07 kbps and 237-byte packets, and at 1000 content bytes
the plan has 5 packets, 133.75 bytes per second, per-packet delay 237/133.75
(between 1.7719 and 1.7720, so about 1.7720, not 1.7729) and total duration
five times that (between 8.8598 and 8.8599, so about 8.8598, not 8.8645). -/
theorem c7_preset6_scenario :
    RADIO_PRESETS.length = 8 ∧
    default_preset = "6" ∧
    (RADIO_PRESETS.lookup "6").map Preset.data_rate_kbps = some 1.07 ∧
    (RADIO_PRESETS.lookup "6").map Preset.packet_size_bytes = some 237 ∧
    (calculate_transmission_metrics 1.07 1000 237).total_packets = 5 ∧
    (calculate_transmission_metrics 1.07 1000 237).bytes_per_second = 133.75 ∧
    (calculate_transmission_metrics 1.07 1000 237).transmission_time_per_packet = 237 / 133.75 ∧
    (1.7719 : ℚ) < (calculate_transmission_metrics 1.07 1000 237).transmission_time_per_packet ∧
    (calculate_transmission_metrics 1.07 1000 237).transmission_time_per_packet < 1.7720 ∧
    (calculate_transmission_metrics 1.07 1000 237).total_transmission_time = 5 * (237 / 133.75) ∧
    (8.8598 : ℚ) < (calculate_transmission_metrics 1.07 1000 237).total_transmission_time ∧
    (calculate_transmission_metrics 1.07 1000 237).total_transmission_time < 8.8599 := by
  refine ⟨rfl, rfl, rfl, rfl, ?_⟩
  norm_num [calculate_transmission_metrics]

/-- `dots_to_show = min(int(delay), 15)` (source line 226). Python `int()`
truncates toward zero; the delays that reach this line are positive
(`packet_size / bytes_per_second` with both positive), where truncation is the
floor. -/
def dots_to_show (delay : ℚ) : ℕ :=
  min ⌊delay⌋.toNat 15

/-- `dot_interval = delay / dots_to_show if dots_to_show > 0 else delay`
(source line 227). -/
def dot_interval (delay : ℚ) : ℚ :=
  if dots_to_show delay > 0 then delay / dots_to_show delay else delay

/-- `remaining_delay = delay - (dots_to_show * dot_interval)` (source line 234). -/
def remaining_delay (delay : ℚ) : ℚ :=
  delay - dots_to_show delay * dot_interval delay

/-- Total time passed to `time.sleep` for one packet: `dots_to_show` sleeps of
`dot_interval` each, plus the remainder sleep when `remaining_delay > 0`
(source lines 229-236). The fixed 0.05 s inter-packet pause (line 254) is
separate and deliberately excluded. -/
def slept_per_packet (delay : ℚ) : ℚ :=
  dots_to_show delay * dot_interval delay +
    (if remaining_delay delay > 0 then remaining_delay delay else 0)

/-- C5: for every positive per-packet delay, the visual sub-delay partition is
`min(floor(delay), 15)` equal slices of `delay / dots` (with a zero, unslept
remainder), or — when `floor(delay) = 0` — no slices and a single remainder
sleep of the whole delay; in exact arithmetic the total slept time equals the
delay. -/
theorem c5_sleep_sum_exact (delay : ℚ) (hd : 0 < delay) :
    dots_to_show delay = min ⌊delay⌋.toNat 15 ∧
    slept_per_packet delay = delay ∧
    (0 < dots_to_show delay →
      dot_interval delay = delay / dots_to_show delay ∧ remaining_delay delay = 0) ∧
    (dots_to_show delay = 0 → remaining_delay delay = delay) := by
  rcases Nat.eq_zero_or_pos (dots_to_show delay) with h0 | hpos
  · have hiv : dot_interval delay = delay := by
      rw [dot_interval, if_neg (by omega)]
    have hrem : remaining_delay delay = delay := by
      rw [remaining_delay, hiv, h0]
      push_cast
      ring
    refine ⟨rfl, ?_, ?_, fun _ => hrem⟩
    · rw [slept_per_packet, hrem, if_pos hd, h0, hiv]
      push_cast
      ring
    · intro hc
      omega
  · have hne : ((dots_to_show delay : ℕ) : ℚ) ≠ 0 := by
      exact_mod_cast Nat.pos_iff_ne_zero.mp hpos
    have hiv : dot_interval delay = delay / dots_to_show delay := by
      rw [dot_interval, if_pos hpos]
    have hmul : (dots_to_show delay : ℚ) * dot_interval delay = delay := by
      rw [hiv]
      field_simp
    have hrem : remaining_delay delay = 0 := by
      rw [remaining_delay, hmul]
      ring
    refine ⟨rfl, ?_, fun _ => ⟨hiv, hrem⟩, fun hc => absurd hc (by omega)⟩
    rw [slept_per_packet, hrem, hmul]
    norm_num

/-- C5 witness: delay 5/2 gives 2 dots of 5/4 each and zero remainder, summing
to 5/2. -/
theorem c5_witness :
    dots_to_show (5 / 2 : ℚ) = min ⌊(5 / 2 : ℚ)⌋.toNat 15 ∧
    slept_per_packet (5 / 2 : ℚ) = 5 / 2 ∧
    (0 < dots_to_show (5 / 2 : ℚ) →
      dot_interval (5 / 2 : ℚ) = (5 / 2 : ℚ) / dots_to_show (5 / 2 : ℚ) ∧
      remaining_delay (5 / 2 : ℚ) = 0) ∧
    (dots_to_show (5 / 2 : ℚ) = 0 → remaining_delay (5 / 2 : ℚ) = 5 / 2) :=
  c5_sleep_sum_exact (5 / 2) (by norm_num)

/-- Number of `time.sleep` calls for one packet that precede the counter
updates: the dot sleeps (lines 229-231) plus the conditional remainder sleep
(lines 234-236). The 0.05 s pause (line 254) comes after the updates. -/
def sleeps_before_update (delay : ℚ) : ℕ :=
  dots_to_show delay + (if remaining_delay delay > 0 then 1 else 0)

/-- Lengths of the chunks produced by `content[i:i + packet_size]` for
`i in range(0, len(content), packet_size)` (source lines 219-220), as a
function of the content length. -/
def chunk_lens (packet_size L : ℕ) : List ℕ :=
  (List.range ((L + packet_size - 1) / packet_size)).map
    (fun i => min packet_size (L - i * packet_size))

/-- Outcome of one `simulate_transmission` run: `Completed` reports
`packet_num - 1` and `total_bytes_sent` from the final-statistics block
(lines 262-267); `Cancelled` reports the same two quantities from the
`KeyboardInterrupt` handler (lines 256-260). -/
inductive RunResult where
  | Completed (packets : ℕ) (bytes : ℕ)
  | Cancelled (packets : ℕ) (bytes : ℕ)
deriving DecidableEq, Repr

/-- The `for i in range(0, len(content), packet_size)` loop of
`simulate_transmission` (source lines 219-254), with the wall-clock sleeps made
explicit: `sleepCount` numbers every `time.sleep` call of the run, and `cancel`
is the index of the sleep during which `KeyboardInterrupt` fires (if any) —
cancellation is observable only at suspension points. Per packet the loop
sleeps `sleeps_before_update delay` times, then adds the chunk's length to
`total_bytes_sent` and increments `packet_num` (lines 244, 251), then sleeps
once more for the fixed 0.05 s pause (line 254). -/
def runLoop (delay : ℚ) (cancel : Option ℕ) : List ℕ → ℕ → ℕ → ℕ → RunResult
  | [] => fun _ total_bytes_sent packet_num =>
      RunResult.Completed (packet_num - 1) total_bytes_sent
  | chunk :: rest => fun sleepCount total_bytes_sent packet_num =>
      let nA := sleeps_before_update delay
      match cancel with
      | some c =>
          if sleepCount ≤ c ∧ c < sleepCount + nA then
            RunResult.Cancelled (packet_num - 1) total_bytes_sent
          else if c = sleepCount + nA then
            RunResult.Cancelled packet_num (total_bytes_sent + chunk)
          else
            runLoop delay cancel rest (sleepCount + nA + 1) (total_bytes_sent + chunk)
              (packet_num + 1)
      | none =>
          runLoop delay cancel rest (sleepCount + nA + 1) (total_bytes_sent + chunk)
            (packet_num + 1)

/-- `simulate_transmission`'s transmission phase on content of length `L`:
counters start at `total_bytes_sent = 0`, `packet_num = 1` (lines 215-216). -/
def simulate_transmission_run (packet_size : ℕ) (delay : ℚ) (cancel : Option ℕ)
    (L : ℕ) : RunResult :=
  runLoop delay cancel (chunk_lens packet_size L) 0 0 1

/-- A cancelled `runLoop` reports exactly the fully delivered chunks: starting
from `packet_num = pnum` with `bytes` already-credited bytes, the report is
`pnum - 1 + k` packets and `bytes` plus the first `k` remaining chunk lengths,
for some `k` not exceeding the remaining chunks. -/
lemma runLoop_cancelled (delay : ℚ) (c : ℕ) :
    ∀ (rest : List ℕ) (sleepCount bytes pnum p b : ℕ), 1 ≤ pnum →
      runLoop delay (some c) rest sleepCount bytes pnum = RunResult.Cancelled p b →
      ∃ k, k ≤ rest.length ∧ p = pnum - 1 + k ∧ b = bytes + (rest.take k).sum := by
  intro rest
  induction rest with
  | nil =>
      intro sleepCount bytes pnum p b hpnum h
      simp only [runLoop] at h
      exact absurd h (by simp)
  | cons chunk rest ih =>
      intro sleepCount bytes pnum p b hpnum h
      simp only [runLoop] at h
      by_cases h1 : sleepCount ≤ c ∧ c < sleepCount + sleeps_before_update delay
      · rw [if_pos h1] at h
        refine ⟨0, by omega, ?_, ?_⟩
        · cases h
          rfl
        · cases h
          simp
      · rw [if_neg h1] at h
        by_cases h2 : c = sleepCount + sleeps_before_update delay
        · rw [if_pos h2] at h
          refine ⟨1, by simp, ?_, ?_⟩
          · cases h
            omega
          · cases h
            simp
        · rw [if_neg h2] at h
          obtain ⟨k, hk, hp, hb⟩ :=
            ih (sleepCount + sleeps_before_update delay + 1) (bytes + chunk)
              (pnum + 1) p b (by omega) h
          refine ⟨k + 1, by simpa using hk, by omega, ?_⟩
          rw [hb, List.take_succ_cons, List.sum_cons]
          omega

/-- C3: whenever the run is interrupted at a suspension point (any wall-clock
sleep), the outcome is `Cancelled` reporting `packet_num - 1` packets, and the
reported bytes are exactly the sum of the lengths of that many fully delivered
chunks — an in-flight, partially slept packet is never credited to the byte
count or the packet count. -/
theorem c3_cancelled_partial_report (packet_size : ℕ) (delay : ℚ) (c L p b : ℕ)
    (h : simulate_transmission_run packet_size delay (some c) L =
      RunResult.Cancelled p b) :
    b = ((chunk_lens packet_size L).take p).sum ∧
    p ≤ (chunk_lens packet_size L).length := by
  obtain ⟨k, hk, hp, hb⟩ :=
    runLoop_cancelled delay c (chunk_lens packet_size L) 0 0 1 p b (by omega) h
  have hpk : p = k := by omega
  subst hpk
  exact ⟨by simpa using hb, hk⟩

/-- At delay 2 each packet has exactly two dot sleeps and no remainder sleep
before the counter updates. -/
lemma sleeps_before_update_two : sleeps_before_update 2 = 2 := by
  have hdots : dots_to_show 2 = 2 := by
    norm_num [dots_to_show]
    rfl
  have hiv : dot_interval 2 = 1 := by
    norm_num [dot_interval, hdots]
  have hrem : remaining_delay 2 = 0 := by
    norm_num [remaining_delay, hdots, hiv]
  norm_num [sleeps_before_update, hdots, hrem]

/-- Concrete run: 3-byte packets, delay 2, content length 7 (chunks 3, 3, 1),
`KeyboardInterrupt` during the fourth sleep (the first dot of packet 2). -/
lemma run_372_cancelled :
    simulate_transmission_run 3 2 (some 3) 7 = RunResult.Cancelled 1 3 := by
  have hchunks : chunk_lens 3 7 = [3, 3, 1] := by decide
  rw [simulate_transmission_run, hchunks]
  simp [runLoop, sleeps_before_update_two]

/-- C3 witness: the concrete cancelled run above reports 1 packet and 3 bytes,
which is the sum of the single fully delivered chunk. -/
theorem c3_witness :
    (3 : ℕ) = ((chunk_lens 3 7).take 1).sum ∧
    (1 : ℕ) ≤ (chunk_lens 3 7).length :=
  c3_cancelled_partial_report 3 2 3 7 1 3 run_372_cancelled

/-- C8: with empty content the plan's packet count, total duration, effective
rate and overhead are all zero (only the `> 0` guards' else-branches are
taken, so no division by the zero length or zero duration occurs), the chunk
list is empty, and the run performs zero packet iterations, ending immediately
as `Completed` with zero packets and zero bytes, whatever the delay or the
interrupt schedule. -/
theorem c8_empty_content (data_rate_kbps : ℚ) (P : ℕ) (hP : 0 < P) :
    (calculate_transmission_metrics data_rate_kbps 0 P).total_packets = 0 ∧
    (calculate_transmission_metrics data_rate_kbps 0 P).total_transmission_time = 0 ∧
    (calculate_transmission_metrics data_rate_kbps 0 P).effective_data_rate_bps = 0 ∧
    (calculate_transmission_metrics data_rate_kbps 0 P).overhead_percentage = 0 ∧
    chunk_lens P 0 = [] ∧
    ∀ (delay : ℚ) (cancel : Option ℕ),
      simulate_transmission_run P delay cancel 0 = RunResult.Completed 0 0 := by
  have htp : (0 + P - 1) / P = 0 := Nat.div_eq_of_lt (by omega)
  have hchunks : chunk_lens P 0 = [] := by
    rw [chunk_lens, htp]
    simp
  have htime : (calculate_transmission_metrics data_rate_kbps 0 P).total_transmission_time = 0 := by
    show ((((0 + P - 1) / P : ℕ) : ℚ) * _) = 0
    rw [htp]
    simp
  refine ⟨htp, htime, ?_, ?_, hchunks, ?_⟩
  · simp [calculate_transmission_metrics, htp]
  · simp [calculate_transmission_metrics]
  · intro delay cancel
    rw [simulate_transmission_run, hchunks]
    cases cancel <;> rfl

/-- C8 witness: preset 6's parameters at content length 0. -/
theorem c8_witness :
    (calculate_transmission_metrics 1.07 0 237).total_packets = 0 ∧
    (calculate_transmission_metrics 1.07 0 237).total_transmission_time = 0 ∧
    (calculate_transmission_metrics 1.07 0 237).effective_data_rate_bps = 0 ∧
    (calculate_transmission_metrics 1.07 0 237).overhead_percentage = 0 ∧
    chunk_lens 237 0 = [] ∧
    ∀ (delay : ℚ) (cancel : Option ℕ),
      simulate_transmission_run 237 delay cancel 0 = RunResult.Completed 0 0 :=
  c8_empty_content 1.07 237 (by decide)

/-- Python `str.lower()` as used on the candidate keyword strings
(ASCII case mapping, applied character by character). -/
def pyLower (s : String) : String :=
  ⟨s.data.map Char.toLower⟩

/-- The reserved keyword list of `get_file_content` (source line 100). -/
def keywordSources : List String :=
  ["sample", "demo", "test", "default"]

/-- How `get_file_content` resolved its `source` argument. -/
inductive ContentResult where
  | sampleText
  | urlContent (body : String)
  | fileContent (body : String)
  | fetchError
deriving DecidableEq, Repr

/-- `MeshtasticSimulator.get_file_content` (source lines 98-122) with its
external collaborators passed in: `isHttpUrl` is the urlparse scheme test of
line 107, `fetchUrl` and `readFile` the URL and file reads (`none` meaning the
read raised, landing in the `except` block that prints and returns `None`,
lines 120-122), `fileExists` the `os.path.exists` check of line 113. -/
def get_file_content (isHttpUrl : String → Bool) (fetchUrl : String → Option String)
    (fileExists : String → Bool) (readFile : String → Option String)
    (source : String) : ContentResult :=
  if pyLower source ∈ keywordSources then ContentResult.sampleText
  else if isHttpUrl source then
    match fetchUrl source with
    | some body => ContentResult.urlContent body
    | none => ContentResult.fetchError
  else if !fileExists source then ContentResult.fetchError
  else
    match readFile source with
    | some body => ContentResult.fileContent body
    | none => ContentResult.fetchError

/-- C10: keyword matching is case-insensitive — whenever the lowercased source
is one of "sample", "demo", "test", "default", the built-in sample text is
returned, regardless of what the URL or file collaborators would do. -/
theorem c10_keyword_case_insensitive (isHttpUrl : String → Bool)
    (fetchUrl : String → Option String) (fileExists : String → Bool)
    (readFile : String → Option String) (source : String)
    (h : pyLower source ∈ keywordSources) :
    get_file_content isHttpUrl fetchUrl fileExists readFile source =
      ContentResult.sampleText := by
  rw [get_file_content, if_pos h]

/-- C10 witness: `"SAMPLE"` lowercases to `"sample"` and is resolved to the
sample text even when a file of that name would exist. -/
theorem c10_witness :
    get_file_content (fun _ => false) (fun _ => none) (fun _ => true)
      (fun s => some s) "SAMPLE" = ContentResult.sampleText :=
  c10_keyword_case_insensitive (fun _ => false) (fun _ => none) (fun _ => true)
    (fun s => some s) "SAMPLE" (by decide)

/-- Observable outcome of one direct-mode invocation: which preset id was
handed to `simulate_transmission`, whether `get_file_content`'s error message
was printed (line 121), whether `simulate_transmission` was invoked at all
(line 344), whether it bailed out printing `Invalid preset ID` (lines 189-191),
and the process exit code. -/
structure DirectRun where
  presetUsed : String
  fetch_error_msg : Bool
  called_simulate : Bool
  invalid_preset_msg : Bool
  exit_code : ℕ
deriving DecidableEq, Repr

/-- The direct (CLI-argument) path of `main` (source lines 336-344) composed
with the preset-validity gate at the top of `simulate_transmission`
(lines 189-191). `fetched` is `get_file_content`'s return value (`none` =
failure, after the error print of line 121); `preset_arg` is `sys.argv[2]`
when present, and `preset_id = sys.argv[2] if len(sys.argv) > 2 else
simulator.default_preset` (line 339). The program contains no `sys.exit`
call, so every path falls off the end of `main` and the process terminates
with exit code 0. -/
def main_direct (fetched : Option String) (preset_arg : Option String) : DirectRun :=
  let preset_id := preset_arg.getD default_preset
  match fetched with
  | none =>
      { presetUsed := preset_id, fetch_error_msg := true, called_simulate := false,
        invalid_preset_msg := false, exit_code := 0 }
  | some _ =>
      if presetKnown preset_id then
        { presetUsed := preset_id, fetch_error_msg := false, called_simulate := true,
          invalid_preset_msg := false, exit_code := 0 }
      else
        { presetUsed := preset_id, fetch_error_msg := false, called_simulate := true,
          invalid_preset_msg := true, exit_code := 0 }

/-- C1 counterexample: in direct mode with a good source and the invalid
preset argument "99", the id handed on is "99" itself — not the default "6" —
and `simulate_transmission` rejects it with the `Invalid preset ID` message
instead of running the simulation, refuting the claimed default-substitution
on invalid ids. -/
theorem c1_counterexample :
    (main_direct (some "content") (some "99")).presetUsed = "99" ∧
    (main_direct (some "content") (some "99")).presetUsed ≠ default_preset ∧
    (main_direct (some "content") (some "99")).invalid_preset_msg = true := by
  refine ⟨rfl, by decide, ?_⟩
  rfl

/-- C1 amended: in direct mode the default preset "6" is substituted only when
the profileId argument is omitted; an invalid profileId is passed through
unchanged and `simulate_transmission` rejects it with a message and returns
without simulating — a handled outcome with exit code 0, never a crash and
never a silent fallback to the default. -/
theorem c1_amended_invalid_preset_rejected (content a : String)
    (h : presetKnown a = false) :
    (main_direct (some content) (some a)).presetUsed = a ∧
    (main_direct (some content) (some a)).invalid_preset_msg = true ∧
    (main_direct (some content) (some a)).exit_code = 0 ∧
    (main_direct (some content) none).presetUsed = default_preset := by
  have hdef : presetKnown default_preset = true := by decide
  refine ⟨?_, ?_, ?_, ?_⟩ <;> simp [main_direct, h, hdef]

/-- C1 witness: the amended behavior at source "content" and bad preset "99". -/
theorem c1_witness :
    (main_direct (some "content") (some "99")).presetUsed = "99" ∧
    (main_direct (some "content") (some "99")).invalid_preset_msg = true ∧
    (main_direct (some "content") (some "99")).exit_code = 0 ∧
    (main_direct (some "content") none).presetUsed = default_preset :=
  c1_amended_invalid_preset_rejected "content" "99" (by decide)

/-- C4 counterexample: on a failed fetch in direct mode the message is printed
and no simulation starts, but the process exit code is 0 — there is no
`sys.exit` in the program — refuting the claimed non-zero exit code. -/
theorem c4_counterexample :
    (main_direct none (some "6")).fetch_error_msg = true ∧
    (main_direct none (some "6")).called_simulate = false ∧
    (main_direct none (some "6")).exit_code = 0 :=
  ⟨rfl, rfl, rfl⟩

/-- C4 amended: in direct mode a content-source failure prints a message and
never invokes the simulation, and the process exits with code 0 on this path
exactly as on normal completion and user cancellation — the exit code does not
distinguish fetch failure. -/
theorem c4_amended_exit_zero (preset_arg : Option String) :
    (main_direct none preset_arg).fetch_error_msg = true ∧
    (main_direct none preset_arg).called_simulate = false ∧
    (main_direct none preset_arg).exit_code = 0 ∧
    ∀ content : String, (main_direct (some content) preset_arg).exit_code = 0 := by
  refine ⟨rfl, rfl, rfl, fun content => ?_⟩
  rw [main_direct]
  split <;> rfl

/-- C9 witness: the identity at preset 6's parameters and 1000 bytes. -/
theorem c9_witness :
    (calculate_transmission_metrics 1.07 1000 237).total_transmission_time =
      (calculate_transmission_metrics 1.07 1000 237).total_packets *
      (calculate_transmission_metrics 1.07 1000 237).transmission_time_per_packet :=
  c9_duration_identity 1.07 1000 237

/-- C4 witness: the amended exit-code behavior at concrete inputs. -/
theorem c4_witness :
    (main_direct none (some "7")).fetch_error_msg = true ∧
    (main_direct none (some "7")).called_simulate = false ∧
    (main_direct none (some "7")).exit_code = 0 ∧
    (main_direct (some "text") (some "7")).exit_code = 0 :=
  ⟨(c4_amended_exit_zero (some "7")).1, (c4_amended_exit_zero (some "7")).2.1,
    (c4_amended_exit_zero (some "7")).2.2.1, (c4_amended_exit_zero (some "7")).2.2.2 "text"⟩
